import Mathlib

/-!
Shallow embedding of the BanHammer anti-cheat core
(`app/core/universal_anti_cheat.py`, `app/core/anti_cheat.py`,
`app/core/game_profiles.py`).

Conventions of the embedding:
* Python floats are modelled by `ℚ` in the discrete pipeline (every float is a
  rational) and by `ℝ` where the source computes real powers / square roots
  (score decay `0.9 ** (dt / 3600)`, `np.std`).
* Python `Any`-typed action values are modelled by `PyValue`; Python's
  `isinstance(v, (int, float))` is true for `bool` values as well, which the
  model reproduces.
* Dictionaries are modelled as association lists with first-match lookup
  (`alookup`) and in-place replacement (`aset`), matching `dict` semantics for
  the operations the source performs.
* The engine is modelled as constructed with `enable_ml=False` and no Redis
  client, so the ML branch and the Redis branch of `analyze_action` are the
  source's explicit no-op paths.
* Of the dynamic rule evaluators, `rate_limit` and `threshold` are embedded
  inside the pipeline; `statistical` is embedded separately over `ℝ`
  (`DynamicRuleEngine.evaluate_statistical`); `pattern` and `custom` rules are
  outside the scope of this development, and `evaluate_rule` returns `none`
  for them as it does in the source for unknown rule types and unregistered
  custom rules.
-/

/-- First-match association-list lookup, the model of Python `dict.get`. -/
def alookup {β : Type} (k : String) : List (String × β) → Option β
  | [] => Option.none
  | (k', v) :: rest => if k' = k then Option.some v else alookup k rest

/-- Association-list set, the model of Python `dict[k] = v`: replaces the
first binding of `k` in place, else appends. -/
def aset {β : Type} (k : String) (v : β) : List (String × β) → List (String × β)
  | [] => [(k, v)]
  | (k', v') :: rest => if k' = k then (k, v) :: rest else (k', v') :: aset k v rest

/-- Model of a Python `Any` value as it flows through the engine. -/
inductive PyValue : Type
  | pyInt (z : ℤ)
  | pyFloat (q : ℚ)
  | pyBool (b : Bool)
  | pyStr (s : String)
  | pyNone
deriving DecidableEq, Repr

/-- Model of `isinstance(v, (int, float))`; Python `bool` is a subclass of `int`. -/
def PyValue.isNum : PyValue → Bool
  | .pyInt _ => true
  | .pyFloat _ => true
  | .pyBool _ => true
  | _ => false

/-- Model of `isinstance(v, int)`; Python `bool` is a subclass of `int`. -/
def PyValue.isInt : PyValue → Bool
  | .pyInt _ => true
  | .pyBool _ => true
  | _ => false

/-- Model of `isinstance(v, bool)`. -/
def PyValue.isBool : PyValue → Bool
  | .pyBool _ => true
  | _ => false

/-- Model of `float(v)` for the numeric values (`0` otherwise, used only behind
`isNum` guards as in the source). -/
def PyValue.asQ : PyValue → ℚ
  | .pyInt z => (z : ℚ)
  | .pyFloat q => q
  | .pyBool b => if b then 1 else 0
  | _ => 0

/-- Source `UniversalPlayerAction` (`universal_anti_cheat.py`); metadata is modelled
by the list of its present keys, the only thing `validate_action` reads. -/
structure UniversalPlayerAction where
  player_id : String
  game_id : String
  action_type : String
  timestamp : ℚ
  value : PyValue
  metadataKeys : List String := []
deriving DecidableEq, Repr

/-- Source `ViolationType` enumeration (`universal_anti_cheat.py`). -/
inductive ViolationType : Type
  | rate_limit_exceeded
  | threshold_exceeded
  | suspicious_pattern
  | statistical_anomaly
  | ml_detection
  | custom_rule
  | invalid_action
deriving DecidableEq, Repr

/-- Source `UniversalViolation`; the reporting-only `details` and `action_context`
fields are not modelled. -/
structure UniversalViolation where
  player_id : String
  game_id : String
  violation_type : ViolationType
  rule_id : String
  severity : ℚ
  timestamp : ℚ
deriving DecidableEq, Repr

/-- Source `GameGenre` enumeration (`game_profiles.py`). -/
inductive GameGenre : Type
  | mmorpg | mobile_rpg | fps | moba | battle_royale | strategy
  | puzzle | idle | card | racing | sports | casino | platform | sandbox
deriving DecidableEq, Repr

/-- Source `ActionDefinition` (`game_profiles.py`); `category` is kept as its string
value, `optional_fields` and `metadata_schema` are never read by the engine. -/
structure ActionDefinition where
  name : String
  category : String
  description : String
  value_type : String := "float"
  value_range : Option (ℚ × ℚ) := Option.none
  required_fields : List String := []
deriving DecidableEq, Repr

/-- Source `DetectionRule.parameters`, modelled by the keys the embedded evaluators
consult; keys the evaluators never read are recorded by name in
`extra_keys`. -/
structure RuleParams where
  max_per_minute : Option ℚ := Option.none
  max_count : Option ℚ := Option.none
  max_value_per_minute : Option ℚ := Option.none
  max_total_value : Option ℚ := Option.none
  time_window : Option ℚ := Option.none
  max_value : Option ℚ := Option.none
  min_value : Option ℚ := Option.none
  z_threshold : Option ℚ := Option.none
  extra_keys : List String := []
deriving DecidableEq, Repr

/-- Source `DetectionRule` (`game_profiles.py`); `rule_type` is a string, as in the
source. -/
structure DetectionRule where
  rule_id : String
  name : String
  description : String
  action_types : List String
  rule_type : String
  params : RuleParams
  severity : ℚ
  enabled : Bool := true
deriving DecidableEq, Repr

/-- Source `GameProfile` (`game_profiles.py`); `actions` is the insertion-ordered
name→definition dictionary, `rate_limits`/`thresholds`/`ml_features` are
never read by the engine and are not modelled. -/
structure GameProfile where
  game_id : String
  game_name : String
  genre : GameGenre
  description : String
  actions : List (String × ActionDefinition) := []
  detection_rules : List DetectionRule := []
  auto_ban_threshold : ℚ := 8
  warning_threshold : ℚ := 5
  monitoring_window_hours : ℤ := 24
deriving DecidableEq, Repr

/-- The validation issues `GameProfile.validate_action` can report (the
source appends human-readable strings; the embedding keeps their kinds). -/
inductive ValidationIssue : Type
  | unknown_action_type
  | wrong_value_type
  | value_out_of_range
  | missing_required_field (f : String)
deriving DecidableEq, Repr

/-- Source `GameProfile.validate_action` (`game_profiles.py`, lines 99-128). -/
def GameProfile.validate_action (p : GameProfile) (action_type : String)
    (value : PyValue) (metadataKeys : List String) : List ValidationIssue :=
  match alookup action_type p.actions with
  | Option.none => [ValidationIssue.unknown_action_type]
  | Option.some d =>
    let typeErr : List ValidationIssue :=
      if d.value_type = "float" then
        (if value.isNum then [] else [ValidationIssue.wrong_value_type])
      else if d.value_type = "int" then
        (if value.isInt then [] else [ValidationIssue.wrong_value_type])
      else if d.value_type = "bool" then
        (if value.isBool then [] else [ValidationIssue.wrong_value_type])
      else []
    let rangeErr : List ValidationIssue :=
      match d.value_range with
      | Option.some (lo, hi) =>
        if value.isNum && !(decide (lo ≤ value.asQ) && decide (value.asQ ≤ hi)) then
          [ValidationIssue.value_out_of_range]
        else []
      | Option.none => []
    let missing : List ValidationIssue :=
      d.required_fields.filterMap fun f =>
        if f ∈ metadataKeys then Option.none
        else Option.some (ValidationIssue.missing_required_field f)
    typeErr ++ rangeErr ++ missing

/-- The actions a rule applies to inside its trailing window:
`relevant_actions` of `DynamicRuleEngine._evaluate_rate_limit`
(`universal_anti_cheat.py`, lines 90-93). -/
def relevant_actions (now : ℚ) (rule : DetectionRule)
    (actions : List UniversalPlayerAction) : List UniversalPlayerAction :=
  let window := (rule.params.time_window).getD 60
  let cutoff := now - window
  actions.filter fun a =>
    decide (a.action_type ∈ rule.action_types) && decide (cutoff ≤ a.timestamp)

/-- The effective count limit of a rate-limit rule:
`rule.parameters.get("max_per_minute", rule.parameters.get("max_count", 10))`. -/
def rate_max_count (rule : DetectionRule) : ℚ :=
  (rule.params.max_per_minute).getD ((rule.params.max_count).getD 10)

/-- Source `DynamicRuleEngine._evaluate_rate_limit` (`universal_anti_cheat.py`,
lines 79-139). -/
def DynamicRuleEngine.evaluate_rate_limit (now : ℚ) (rule : DetectionRule)
    (actions : List UniversalPlayerAction) : Option UniversalViolation :=
  match actions with
  | [] => Option.none
  | a0 :: _ =>
    let relevant := relevant_actions now rule actions
    if rate_max_count rule < (relevant.length : ℚ) then
      Option.some
        { player_id := a0.player_id, game_id := a0.game_id
          violation_type := ViolationType.rate_limit_exceeded
          rule_id := rule.rule_id, severity := rule.severity, timestamp := now }
    else if (rule.params.max_value_per_minute).isSome
        || (rule.params.max_total_value).isSome then
      let total : ℚ :=
        (relevant.map fun a => if a.value.isNum then a.value.asQ else 0).sum
      let max_value :=
        (rule.params.max_value_per_minute).getD
          ((rule.params.max_total_value).getD 1000)
      if max_value < total then
        Option.some
          { player_id := a0.player_id, game_id := a0.game_id
            violation_type := ViolationType.rate_limit_exceeded
            rule_id := rule.rule_id, severity := rule.severity, timestamp := now }
      else Option.none
    else Option.none

/-- Source `DynamicRuleEngine._evaluate_threshold` (`universal_anti_cheat.py`,
lines 141-188). -/
def DynamicRuleEngine.evaluate_threshold (now : ℚ) (rule : DetectionRule)
    (actions : List UniversalPlayerAction) : Option UniversalViolation :=
  match actions with
  | [] => Option.none
  | _ :: _ =>
    let relevant := actions.filter fun a => decide (a.action_type ∈ rule.action_types)
    match relevant.getLast? with
    | Option.none => Option.none
    | Option.some latest =>
      let maxHit :=
        match rule.params.max_value with
        | Option.some mv => latest.value.isNum && decide (mv < latest.value.asQ)
        | Option.none => false
      if maxHit then
        Option.some
          { player_id := latest.player_id, game_id := latest.game_id
            violation_type := ViolationType.threshold_exceeded
            rule_id := rule.rule_id, severity := rule.severity, timestamp := now }
      else
        let minHit :=
          match rule.params.min_value with
          | Option.some mv => latest.value.isNum && decide (latest.value.asQ < mv)
          | Option.none => false
        if minHit then
          Option.some
            { player_id := latest.player_id, game_id := latest.game_id
              violation_type := ViolationType.threshold_exceeded
              rule_id := rule.rule_id, severity := rule.severity, timestamp := now }
        else Option.none

/-- Source `DynamicRuleEngine.evaluate_rule` dispatch (`universal_anti_cheat.py`,
lines 62-77), restricted to the embedded evaluator kinds; for every other
`rule_type` the source path modelled here returns no violation (unknown rule
types warn and return `None`; custom rules are unregistered in this model;
`pattern` and `statistical` rules are outside this pipeline,
see `DynamicRuleEngine.evaluate_statistical`). -/
def DynamicRuleEngine.evaluate_rule (now : ℚ) (rule : DetectionRule)
    (actions : List UniversalPlayerAction) : Option UniversalViolation :=
  if rule.rule_type = "rate_limit" then
    DynamicRuleEngine.evaluate_rate_limit now rule actions
  else if rule.rule_type = "threshold" then
    DynamicRuleEngine.evaluate_threshold now rule actions
  else Option.none

/-- Result of one `analyze_action` call: the violations returned to the
caller, the player's updated action buffer, and the player's updated entry in
`violation_scores`. -/
structure AnalyzeResult where
  violations : List UniversalViolation
  buffer : List UniversalPlayerAction
  score : ℚ
deriving DecidableEq, Repr

/-- Source `UniversalAntiCheatEngine.analyze_action` (`universal_anti_cheat.py`,
lines 359-444) for one `(game_id, player_id)` pair, with `enable_ml=False`
and no Redis client: validation, buffer append (deque `maxlen=1000`),
rule evaluation over the updated buffer, and the unclamped score update
`violation_scores[game][player] += violation.severity`. -/
def UniversalAntiCheatEngine.analyze_action (now : ℚ) (profile : GameProfile)
    (buffer : List UniversalPlayerAction) (score : ℚ)
    (action : UniversalPlayerAction) : AnalyzeResult :=
  let errs := profile.validate_action action.action_type action.value action.metadataKeys
  let validationViolations : List UniversalViolation :=
    if errs = [] then []
    else
      [{ player_id := action.player_id, game_id := action.game_id
         violation_type := ViolationType.invalid_action
         rule_id := "validation_error", severity := 2, timestamp := now }]
  let appended := buffer ++ [action]
  let recent := appended.drop (appended.length - 1000)
  let ruleViolations := profile.detection_rules.filterMap fun r =>
    if r.enabled then DynamicRuleEngine.evaluate_rule now r recent else Option.none
  let violations := validationViolations ++ ruleViolations
  { violations := violations
    buffer := recent
    score := score + (violations.map (fun v => v.severity)).sum }

/-- The per-read decay factor `0.9 ** (seconds / 3600)` of
`UniversalAntiCheatEngine.get_player_risk_score` (`universal_anti_cheat.py`,
line 459). -/
noncomputable def decay_factor (seconds : ℝ) : ℝ := (0.9 : ℝ) ^ (seconds / 3600)

/-- Source `UniversalAntiCheatEngine.get_player_risk_score` (`universal_anti_cheat.py`,
lines 446-465) for one `(game_id, player_id)` pair: `base` is the stored
`violation_scores` entry, `latest_ts` the timestamp of the newest buffered
action (if any).  Returns `(written-back stored score, returned score)`:
the source writes the decayed score back before returning `min(·, 10.0)`. -/
noncomputable def UniversalAntiCheatEngine.get_player_risk_score (base : ℝ)
    (latest_ts : Option ℝ) (now : ℝ) : ℝ × ℝ :=
  match latest_ts with
  | Option.some t =>
    let decayed := base * decay_factor (now - t)
    (decayed, min decayed 10)
  | Option.none => (base, min base 10)

/-- Source `AntiCheatEngine.get_player_risk_score` (`anti_cheat.py`, lines 352-368):
`has_recent` states whether any buffered action is younger than one hour; if
not, the stored score is multiplied once by the flat factor `0.9` (written
back), and the returned score is capped at `10.0`. -/
noncomputable def AntiCheatEngine.get_player_risk_score (base : ℝ)
    (has_recent : Bool) : ℝ × ℝ :=
  if has_recent then (base, min base 10)
  else (0.9 * base, min (0.9 * base) 10)

/-- Source `UniversalAntiCheatEngine.should_ban_player` (`universal_anti_cheat.py`,
lines 467-478): the ban decision is exactly `risk_score >= auto_ban_threshold`
on the (decayed, capped) risk score; the reason string is not modelled. -/
def UniversalAntiCheatEngine.should_ban_player (auto_ban_threshold base : ℝ)
    (latest_ts : Option ℝ) (now : ℝ) : Prop :=
  auto_ban_threshold ≤
    (UniversalAntiCheatEngine.get_player_risk_score base latest_ts now).2

/-- Modelled from the spec: the engine stores no per-violation log, so the
spec's severe-violations ban override ("≥3 violations with severity ≥4.0
within a trailing 1-hour window") is stated over an explicit list of
`(severity, timestamp)` pairs of the violations a player incurred. -/
def severe_recent_violation_count (violations : List (ℚ × ℚ)) (now : ℚ) : ℕ :=
  (violations.filter fun v => decide (4 ≤ v.1) && decide (now - v.2 ≤ 3600)).length

/-- Model of `np.mean` of a list of (rational-valued) floats. -/
def qmean (l : List ℚ) : ℚ := l.sum / (l.length : ℚ)

/-- Population variance, the square of `np.std`. -/
def qpvar (l : List ℚ) : ℚ :=
  ((l.map fun x => (x - qmean l) ^ 2).sum) / (l.length : ℚ)

/-- Model of `np.std`: the population standard deviation of the sample list. -/
noncomputable def np_std (l : List ℚ) : ℝ := Real.sqrt ((qpvar l : ℚ) : ℝ)

/-- The z-score `abs((latest_value - mean_val) / std_val)` of the latest value
of the sample list against the mean/std of the whole list. -/
noncomputable def z_of (l : List ℚ) : ℝ :=
  |(((l.getLast?).getD 0 : ℚ) : ℝ) - ((qmean l : ℚ) : ℝ)| / np_std l

/-- The numeric matching samples `_evaluate_statistical` works on
(`universal_anti_cheat.py`, lines 274-283). -/
def statistical_values (rule : DetectionRule)
    (actions : List UniversalPlayerAction) : List ℚ :=
  ((actions.filter fun a =>
      decide (a.action_type ∈ rule.action_types) && a.value.isNum).map
    fun a => a.value.asQ)

/-- Source `DynamicRuleEngine._evaluate_statistical` (`universal_anti_cheat.py`,
lines 271-312): needs ≥10 numeric matching samples and a `z_threshold`
parameter; the baseline mean/std are computed over ALL samples (the latest
included), and on `std > 0` and `z > z_threshold` a `statistical_anomaly`
violation is produced whose severity is
`min(rule.severity * (z / z_threshold), 5.0)`; `some s` stands for that
violation with severity `s`. -/
noncomputable def DynamicRuleEngine.evaluate_statistical (rule : DetectionRule)
    (actions : List UniversalPlayerAction) : Option ℝ :=
  let values := statistical_values rule actions
  if values.length < 10 then Option.none
  else
    match rule.params.z_threshold with
    | Option.none => Option.none
    | Option.some T =>
      if 0 < np_std values then
        if (T : ℝ) < z_of values then
          Option.some (min ((rule.severity : ℝ) * (z_of values / (T : ℝ))) 5)
        else Option.none
      else Option.none

/-- The statistical evaluator as the claim describes it: baseline mean/std of
all matching values EXCEPT the latest, violation exactly when the z-score of
the latest value against that baseline exceeds the threshold.  This
definition follows the claim's words, for comparison with the source-derived
`DynamicRuleEngine.evaluate_statistical`. -/
def claim_statistical_violates (T : ℚ) (values : List ℚ) : Prop :=
  10 ≤ values.length ∧
  (T : ℝ) <
    |(((values.getLast?).getD 0 : ℚ) : ℝ) - ((qmean values.dropLast : ℚ) : ℝ)| /
      np_std values.dropLast

/-- Source `GameProfile.add_action` (`game_profiles.py`, lines 87-89):
`self.actions[action_def.name] = action_def`. -/
def GameProfile.add_action (p : GameProfile) (a : ActionDefinition) : GameProfile :=
  { p with actions := aset a.name a p.actions }

/-- Source `GameProfile.add_detection_rule` (`game_profiles.py`, lines 91-93). -/
def GameProfile.add_detection_rule (p : GameProfile) (r : DetectionRule) : GameProfile :=
  { p with detection_rules := p.detection_rules ++ [r] }

/-- Source `GameProfileManager._setup_mmorpg_defaults` (`game_profiles.py`,
lines 224-256). -/
def setup_mmorpg_defaults (p : GameProfile) : GameProfile :=
  let withActions :=
    [ { name := "kill_monster", category := "combat", description := "몬스터 처치",
        value_type := "int", value_range := Option.some (1, 1000) : ActionDefinition },
      { name := "gain_exp", category := "progression", description := "경험치 획득",
        value_type := "float", value_range := Option.some (1, 10000) : ActionDefinition },
      { name := "level_up", category := "progression", description := "레벨업",
        value_type := "int", value_range := Option.some (1, 500) : ActionDefinition },
      { name := "acquire_item", category := "resource", description := "아이템 획득",
        value_type := "int", value_range := Option.some (1, 100) : ActionDefinition },
      { name := "trade_item", category := "economy", description := "아이템 거래",
        value_type := "float", value_range := Option.some (1, 1000000) : ActionDefinition },
      { name := "complete_quest", category := "achievement", description := "퀘스트 완료",
        value_type := "int", value_range := Option.some (1, 50) : ActionDefinition },
      { name := "move_location", category := "movement", description := "위치 이동",
        value_type := "float", value_range := Option.some (0, 10000) : ActionDefinition },
      { name := "use_skill", category := "combat", description := "스킬 사용",
        value_type := "int", value_range := Option.some (1, 100) : ActionDefinition },
      { name := "join_guild", category := "social", description := "길드 가입",
        value_type := "bool" : ActionDefinition },
      { name := "pvp_battle", category := "competitive", description := "PvP 전투",
        value_type := "int", value_range := Option.some (1, 100) : ActionDefinition }
    ].foldl GameProfile.add_action p
  [ { rule_id := "mmorpg_exp_farm", name := "경험치 파밍 탐지",
      description := "비정상적인 경험치 획득", action_types := ["gain_exp"],
      rule_type := "rate_limit",
      params := { max_per_minute := Option.some 20,
                  max_value_per_minute := Option.some 50000 },
      severity := 3 : DetectionRule },
    { rule_id := "mmorpg_item_dupe", name := "아이템 복사 탐지",
      description := "짧은 시간 내 동일 아이템 대량 획득", action_types := ["acquire_item"],
      rule_type := "pattern",
      params := { time_window := Option.some 60,
                  extra_keys := ["duplicate_threshold"] },
      severity := 9/2 : DetectionRule },
    { rule_id := "mmorpg_teleport", name := "순간이동 탐지",
      description := "물리적으로 불가능한 이동", action_types := ["move_location"],
      rule_type := "threshold",
      params := { extra_keys := ["max_speed"] },
      severity := 5 : DetectionRule },
    { rule_id := "mmorpg_skill_spam", name := "스킬 스팸 탐지",
      description := "쿨다운 무시 스킬 연발", action_types := ["use_skill"],
      rule_type := "rate_limit",
      params := { max_per_minute := Option.some 60 },
      severity := 5/2 : DetectionRule }
  ].foldl GameProfile.add_detection_rule withActions

/-- Source `GameProfileManager._setup_mobile_rpg_defaults` (`game_profiles.py`,
lines 258-284). -/
def setup_mobile_rpg_defaults (p : GameProfile) : GameProfile :=
  let withActions :=
    [ { name := "auto_battle", category := "combat", description := "자동 전투",
        value_type := "int", value_range := Option.some (1, 1000) : ActionDefinition },
      { name := "collect_reward", category := "resource", description := "보상 수집",
        value_type := "float", value_range := Option.some (1, 100000) : ActionDefinition },
      { name := "upgrade_equipment", category := "customization", description := "장비 강화",
        value_type := "int", value_range := Option.some (1, 20) : ActionDefinition },
      { name := "summon_hero", category := "gacha", description := "영웅 소환",
        value_type := "int", value_range := Option.some (1, 100) : ActionDefinition },
      { name := "complete_stage", category := "progression", description := "스테이지 클리어",
        value_type := "int", value_range := Option.some (1, 10000) : ActionDefinition },
      { name := "claim_daily", category := "achievement", description := "일일 보상 수령",
        value_type := "int", value_range := Option.some (1, 50) : ActionDefinition },
      { name := "spend_currency", category := "economy", description := "재화 소모",
        value_type := "float", value_range := Option.some (1, 1000000) : ActionDefinition },
      { name := "idle_farming", category := "resource", description := "방치 파밍",
        value_type := "float", value_range := Option.some (1, 100000) : ActionDefinition }
    ].foldl GameProfile.add_action p
  [ { rule_id := "mobile_reward_abuse", name := "보상 수집 남용",
      description := "과도한 보상 수집", action_types := ["collect_reward"],
      rule_type := "rate_limit",
      params := { max_per_minute := Option.some 15,
                  max_value_per_minute := Option.some 500000 },
      severity := 7/2 : DetectionRule },
    { rule_id := "mobile_gacha_exploit", name := "가챠 익스플로잇",
      description := "비정상적인 소환 패턴", action_types := ["summon_hero"],
      rule_type := "statistical",
      params := { z_threshold := Option.some 3 },
      severity := 4 : DetectionRule },
    { rule_id := "mobile_stage_rush", name := "스테이지 러쉬 탐지",
      description := "불가능한 속도의 스테이지 클리어", action_types := ["complete_stage"],
      rule_type := "rate_limit",
      params := { max_per_minute := Option.some 10 },
      severity := 9/2 : DetectionRule }
  ].foldl GameProfile.add_detection_rule withActions

/-- Source `GameProfileManager._setup_fps_defaults` (`game_profiles.py`,
lines 286-311). -/
def setup_fps_defaults (p : GameProfile) : GameProfile :=
  let withActions :=
    [ { name := "player_kill", category := "combat", description := "플레이어 킬",
        value_type := "int", value_range := Option.some (1, 100) : ActionDefinition },
      { name := "headshot", category := "combat", description := "헤드샷",
        value_type := "int", value_range := Option.some (1, 50) : ActionDefinition },
      { name := "move_position", category := "movement", description := "위치 이동",
        value_type := "float" : ActionDefinition },
      { name := "fire_weapon", category := "combat", description := "무기 발사",
        value_type := "int", value_range := Option.some (1, 1000) : ActionDefinition },
      { name := "reload_weapon", category := "combat", description := "재장전",
        value_type := "int", value_range := Option.some (1, 100) : ActionDefinition },
      { name := "match_result", category := "competitive", description := "매치 결과",
        value_type := "string" : ActionDefinition },
      { name := "accuracy_shot", category := "combat", description := "명중률 기록",
        value_type := "float", value_range := Option.some (0, 1) : ActionDefinition }
    ].foldl GameProfile.add_action p
  [ { rule_id := "fps_aimbot", name := "에임봇 탐지",
      description := "비정상적인 명중률", action_types := ["headshot", "accuracy_shot"],
      rule_type := "statistical",
      params := { extra_keys := ["accuracy_threshold", "headshot_ratio"] },
      severity := 5 : DetectionRule },
    { rule_id := "fps_wallhack", name := "월핵 탐지",
      description := "벽 너머 킬 패턴", action_types := ["player_kill"],
      rule_type := "pattern",
      params := { extra_keys := ["suspicious_angle_threshold"] },
      severity := 9/2 : DetectionRule },
    { rule_id := "fps_speed_hack", name := "스피드핵 탐지",
      description := "비정상적인 이동 속도", action_types := ["move_position"],
      rule_type := "threshold",
      params := { extra_keys := ["max_speed"] },
      severity := 4 : DetectionRule }
  ].foldl GameProfile.add_detection_rule withActions

/-- Source `GameProfileManager._setup_idle_defaults` (`game_profiles.py`,
lines 313-337). -/
def setup_idle_defaults (p : GameProfile) : GameProfile :=
  let withActions :=
    [ { name := "idle_income", category := "resource", description := "방치 수익",
        value_type := "float", value_range := Option.some (0, 1000000) : ActionDefinition },
      { name := "prestige", category := "progression", description := "환생/전직",
        value_type := "int", value_range := Option.some (1, 1000) : ActionDefinition },
      { name := "upgrade_building", category := "customization", description := "건물 업그레이드",
        value_type := "int", value_range := Option.some (1, 10000) : ActionDefinition },
      { name := "collect_offline", category := "resource", description := "오프라인 수집",
        value_type := "float", value_range := Option.some (0, 10000000) : ActionDefinition },
      { name := "watch_ad", category := "resource", description := "광고 시청",
        value_type := "int", value_range := Option.some (1, 100) : ActionDefinition },
      { name := "purchase_boost", category := "economy", description := "부스터 구매",
        value_type := "float", value_range := Option.some (1, 1000) : ActionDefinition }
    ].foldl GameProfile.add_action p
  [ { rule_id := "idle_income_hack", name := "수익 조작 탐지",
      description := "비정상적인 방치 수익", action_types := ["idle_income"],
      rule_type := "regression",
      params := { extra_keys := ["residual_threshold"] },
      severity := 4 : DetectionRule },
    { rule_id := "idle_offline_exploit", name := "오프라인 익스플로잇",
      description := "과도한 오프라인 수익", action_types := ["collect_offline"],
      rule_type := "threshold",
      params := { extra_keys := ["time_based_limit"] },
      severity := 7/2 : DetectionRule },
    { rule_id := "idle_ad_spam", name := "광고 스팸 탐지",
      description := "광고 시청 남용", action_types := ["watch_ad"],
      rule_type := "rate_limit",
      params := { extra_keys := ["max_per_hour"] },
      severity := 2 : DetectionRule }
  ].foldl GameProfile.add_detection_rule withActions

/-- Source `GameProfileManager._setup_card_defaults` (`game_profiles.py`,
lines 339-363). -/
def setup_card_defaults (p : GameProfile) : GameProfile :=
  let withActions :=
    [ { name := "play_card", category := "competitive", description := "카드 플레이",
        value_type := "string" : ActionDefinition },
      { name := "win_match", category := "competitive", description := "매치 승리",
        value_type := "bool" : ActionDefinition },
      { name := "earn_coins", category := "economy", description := "코인 획득",
        value_type := "float", value_range := Option.some (1, 10000) : ActionDefinition },
      { name := "open_pack", category := "gacha", description := "팩 개봉",
        value_type := "int", value_range := Option.some (1, 100) : ActionDefinition },
      { name := "craft_card", category := "customization", description := "카드 제작",
        value_type := "int", value_range := Option.some (1, 10) : ActionDefinition },
      { name := "rank_change", category := "competitive", description := "랭크 변화",
        value_type := "int", value_range := Option.some (-1000, 1000) : ActionDefinition }
    ].foldl GameProfile.add_action p
  [ { rule_id := "card_win_rate", name := "승률 조작 탐지",
      description := "비정상적인 승률", action_types := ["win_match"],
      rule_type := "statistical",
      params := { extra_keys := ["win_rate_threshold"] },
      severity := 4 : DetectionRule },
    { rule_id := "card_pack_exploit", name := "팩 개봉 익스플로잇",
      description := "과도한 팩 개봉", action_types := ["open_pack"],
      rule_type := "rate_limit",
      params := { max_per_minute := Option.some 10 },
      severity := 3 : DetectionRule },
    { rule_id := "card_rank_boost", name := "랭크 부스팅 탐지",
      description := "급격한 랭크 상승", action_types := ["rank_change"],
      rule_type := "threshold",
      params := { extra_keys := ["max_increase_per_hour"] },
      severity := 7/2 : DetectionRule }
  ].foldl GameProfile.add_detection_rule withActions

/-- Source `GameProfileManager._setup_puzzle_defaults` (`game_profiles.py`,
lines 365-389). -/
def setup_puzzle_defaults (p : GameProfile) : GameProfile :=
  let withActions :=
    [ { name := "solve_puzzle", category := "achievement", description := "퍼즐 해결",
        value_type := "int", value_range := Option.some (1, 10000) : ActionDefinition },
      { name := "use_hint", category := "resource", description := "힌트 사용",
        value_type := "int", value_range := Option.some (1, 100) : ActionDefinition },
      { name := "complete_level", category := "progression", description := "레벨 완료",
        value_type := "int", value_range := Option.some (1, 10000) : ActionDefinition },
      { name := "earn_stars", category := "achievement", description := "별 획득",
        value_type := "int", value_range := Option.some (1, 3) : ActionDefinition },
      { name := "buy_moves", category := "economy", description := "이동 횟수 구매",
        value_type := "int", value_range := Option.some (1, 100) : ActionDefinition },
      { name := "solve_time", category := "competitive", description := "해결 시간",
        value_type := "float", value_range := Option.some (1, 3600) : ActionDefinition }
    ].foldl GameProfile.add_action p
  [ { rule_id := "puzzle_solve_speed", name := "퍼즐 해결 속도 탐지",
      description := "비인간적인 해결 속도", action_types := ["solve_time"],
      rule_type := "threshold",
      params := { extra_keys := ["min_solve_time"] },
      severity := 4 : DetectionRule },
    { rule_id := "puzzle_perfect_score", name := "완벽 점수 탐지",
      description := "항상 완벽한 점수", action_types := ["earn_stars"],
      rule_type := "pattern",
      params := { extra_keys := ["perfect_ratio"] },
      severity := 7/2 : DetectionRule },
    { rule_id := "puzzle_level_skip", name := "레벨 스킵 탐지",
      description := "과도한 레벨 진행 속도", action_types := ["complete_level"],
      rule_type := "rate_limit",
      params := { max_per_minute := Option.some 20 },
      severity := 3 : DetectionRule }
  ].foldl GameProfile.add_detection_rule withActions

/-- Source `GameProfileManager._apply_genre_defaults` (`game_profiles.py`,
lines 206-222).  The `MOBA` branch calls `self._setup_moba_defaults`, a method
that does not exist anywhere in the source, so that branch raises
`AttributeError`: it is modelled as `none`.  Genres without a branch leave the
profile unchanged. -/
def apply_genre_defaults : GameGenre → GameProfile → Option GameProfile
  | GameGenre.mmorpg, p => Option.some (setup_mmorpg_defaults p)
  | GameGenre.mobile_rpg, p => Option.some (setup_mobile_rpg_defaults p)
  | GameGenre.fps, p => Option.some (setup_fps_defaults p)
  | GameGenre.moba, _ => Option.none
  | GameGenre.idle, p => Option.some (setup_idle_defaults p)
  | GameGenre.card, p => Option.some (setup_card_defaults p)
  | GameGenre.puzzle, p => Option.some (setup_puzzle_defaults p)
  | _, p => Option.some p

/-- Source `GameProfileManager` in-memory state: the `profiles` dictionary.  The
`profiles_dir` persistence is an external collaborator and is not modelled. -/
structure GameProfileManager where
  profiles : List (String × GameProfile) := []
deriving DecidableEq, Repr

/-- Source `GameProfileManager.create_profile` (`game_profiles.py`, lines 139-155):
builds a fresh profile, applies genre defaults, and stores it under
`game_id` — silently replacing any existing binding; there is no duplicate
check.  `none` models the `AttributeError` of the missing MOBA setup. -/
def GameProfileManager.create_profile (mgr : GameProfileManager)
    (game_id game_name : String) (genre : GameGenre) (description : String) :
    Option (GameProfileManager × GameProfile) :=
  let base : GameProfile :=
    { game_id := game_id, game_name := game_name, genre := genre
      description := description }
  match apply_genre_defaults genre base with
  | Option.none => Option.none
  | Option.some p =>
    Option.some ({ profiles := aset game_id p mgr.profiles }, p)

/-- The genre parsing of `UniversalAntiCheatEngine.register_game`
(`universal_anti_cheat.py`, lines 480-490): `GameGenre(genre.lower())`, with
unknown genre strings falling back to `SANDBOX`. -/
def parse_genre (s : String) : GameGenre :=
  if s.toLower = "mmorpg" then GameGenre.mmorpg
  else if s.toLower = "mobile_rpg" then GameGenre.mobile_rpg
  else if s.toLower = "fps" then GameGenre.fps
  else if s.toLower = "moba" then GameGenre.moba
  else if s.toLower = "battle_royale" then GameGenre.battle_royale
  else if s.toLower = "strategy" then GameGenre.strategy
  else if s.toLower = "puzzle" then GameGenre.puzzle
  else if s.toLower = "idle" then GameGenre.idle
  else if s.toLower = "card" then GameGenre.card
  else if s.toLower = "racing" then GameGenre.racing
  else if s.toLower = "sports" then GameGenre.sports
  else if s.toLower = "casino" then GameGenre.casino
  else if s.toLower = "platform" then GameGenre.platform
  else GameGenre.sandbox

/-- Source `UniversalAntiCheatEngine.register_game` (`universal_anti_cheat.py`,
lines 480-490): parses the genre string and delegates to
`create_profile`. -/
def UniversalAntiCheatEngine.register_game (mgr : GameProfileManager)
    (game_id game_name genre description : String) :
    Option (GameProfileManager × GameProfile) :=
  mgr.create_profile game_id game_name (parse_genre genre) description

/-- The in-memory per-player state the cleanup walks over:
`player_actions : game_id → player_id → deque of actions` and
`violation_scores : game_id → player_id → float`. -/
structure EngineState where
  player_actions : List (String × List (String × List UniversalPlayerAction)) := []
  violation_scores : List (String × List (String × ℚ)) := []
deriving DecidableEq, Repr

/-- The `while actions and actions[0].timestamp < cutoff_time: actions.popleft()`
loop of `cleanup_old_data` (`universal_anti_cheat.py`, lines 532-533). -/
def drop_old_head (cutoff : ℚ) (actions : List UniversalPlayerAction) :
    List UniversalPlayerAction :=
  actions.dropWhile fun a => decide (a.timestamp < cutoff)

/-- One game's player buffers after `cleanup_old_data`: each deque loses its
stale prefix, and players left with no actions are deleted
(`universal_anti_cheat.py`, lines 528-537). -/
def cleanup_game_actions (cutoff : ℚ)
    (players : List (String × List UniversalPlayerAction)) :
    List (String × List UniversalPlayerAction) :=
  (players.map fun pa => (pa.1, drop_old_head cutoff pa.2)).filter
    fun pa => !pa.2.isEmpty

/-- The players a game's cleanup deletes: those whose whole buffer is stale. -/
def cleaned_out_players (cutoff : ℚ)
    (players : List (String × List UniversalPlayerAction)) : List String :=
  (players.filter fun pa => (drop_old_head cutoff pa.2).isEmpty).map fun pa => pa.1

/-- The `violation_scores` side of `cleanup_old_data`
(`universal_anti_cheat.py`, lines 536-545): a deleted player's score entry is
deleted with them, and when a game loses all its players its whole score map
is deleted; games absent from `player_actions` are not visited. -/
def cleanup_scores (cutoff : ℚ)
    (player_actions : List (String × List (String × List UniversalPlayerAction)))
    (scores : List (String × List (String × ℚ))) :
    List (String × List (String × ℚ)) :=
  scores.filterMap fun gs =>
    match alookup gs.1 player_actions with
    | Option.none => Option.some gs
    | Option.some ps =>
      if (cleanup_game_actions cutoff ps).isEmpty then Option.none
      else
        Option.some (gs.1, gs.2.filter fun pscore =>
          !decide (pscore.1 ∈ cleaned_out_players cutoff ps))

/-- Source `UniversalAntiCheatEngine.cleanup_old_data` (`universal_anti_cheat.py`,
lines 522-545) with `cutoff = now - 86400`. -/
def UniversalAntiCheatEngine.cleanup_old_data (now : ℚ) (st : EngineState) :
    EngineState :=
  let cutoff := now - 86400
  { player_actions :=
      (st.player_actions.map fun gps => (gps.1, cleanup_game_actions cutoff gps.2)).filter
        fun gps => !gps.2.isEmpty
    violation_scores := cleanup_scores cutoff st.player_actions st.violation_scores }

/-- Reading `UniversalAntiCheatEngine.get_player_risk_score` against a whole
engine state: `violation_scores.get(game_id, {}).get(player_id, 0.0)` and the
newest buffered action, fed to the decay computation; the returned score. -/
noncomputable def EngineState.risk_score_read (st : EngineState)
    (game_id player_id : String) (now : ℝ) : ℝ :=
  let base : ℚ := (alookup player_id ((alookup game_id st.violation_scores).getD [])).getD 0
  let acts : List UniversalPlayerAction :=
    (alookup player_id ((alookup game_id st.player_actions).getD [])).getD []
  (UniversalAntiCheatEngine.get_player_risk_score ((base : ℚ) : ℝ)
    ((acts.getLast?).map fun a => ((a.timestamp : ℚ) : ℝ)) now).2

def exActionDef : ActionDefinition :=
  { name := "collect", category := "resource", description := ""
    value_type := "float", value_range := Option.some (1, 10) }

def exRateRule : DetectionRule :=
  { rule_id := "r1", name := "rate", description := ""
    action_types := ["collect"], rule_type := "rate_limit"
    params := { max_per_minute := Option.some 1 }, severity := 3 }

def exProfile : GameProfile :=
  { game_id := "g", game_name := "G", genre := GameGenre.sandbox
    description := "", actions := [("collect", exActionDef)]
    detection_rules := [exRateRule] }

def mkAct (ts : ℚ) (v : PyValue) : UniversalPlayerAction :=
  { player_id := "p", game_id := "g", action_type := "collect"
    timestamp := ts, value := v }

theorem c4_counterexample :
    ValidationIssue.value_out_of_range ∈
      exProfile.validate_action "collect" (PyValue.pyFloat 20) [] ∧
    (UniversalAntiCheatEngine.analyze_action 101 exProfile
        [mkAct 100 (PyValue.pyFloat 5)] 0 (mkAct 101 (PyValue.pyFloat 20))).score = 5 ∧
    (5 : ℚ) ≠ 2 := by
  refine ⟨by decide, ?_, by norm_num⟩
  norm_num [UniversalAntiCheatEngine.analyze_action, GameProfile.validate_action,
    DynamicRuleEngine.evaluate_rule, DynamicRuleEngine.evaluate_rate_limit,
    relevant_actions, rate_max_count, exProfile, exActionDef, exRateRule, mkAct,
    alookup, PyValue.isNum, PyValue.asQ, List.filterMap_cons]

theorem c4_out_of_range_flagged (now : ℚ) (p : GameProfile)
    (buffer : List UniversalPlayerAction) (score : ℚ)
    (a : UniversalPlayerAction)
    (h : ValidationIssue.value_out_of_range ∈
      p.validate_action a.action_type a.value a.metadataKeys) :
    (∃ v ∈ (UniversalAntiCheatEngine.analyze_action now p buffer score a).violations,
        v.violation_type = ViolationType.invalid_action ∧ v.severity = 2) ∧
    (UniversalAntiCheatEngine.analyze_action now p buffer score a).score =
      score + (((UniversalAntiCheatEngine.analyze_action now p buffer score a).violations.map
        fun v => v.severity).sum) := by
  have hne : p.validate_action a.action_type a.value a.metadataKeys ≠ [] :=
    List.ne_nil_of_mem h
  refine ⟨⟨{ player_id := a.player_id, game_id := a.game_id
             violation_type := ViolationType.invalid_action
             rule_id := "validation_error", severity := 2, timestamp := now }, ?_,
           rfl, rfl⟩, rfl⟩
  show _ ∈ (UniversalAntiCheatEngine.analyze_action now p buffer score a).violations
  unfold UniversalAntiCheatEngine.analyze_action
  simp only [if_neg hne]
  exact List.mem_append_left _ (List.mem_singleton.mpr rfl)

theorem c4_witness :
    (∃ v ∈ (UniversalAntiCheatEngine.analyze_action 101 exProfile []
        0 (mkAct 101 (PyValue.pyFloat 20))).violations,
        v.violation_type = ViolationType.invalid_action ∧ v.severity = 2) ∧
    (UniversalAntiCheatEngine.analyze_action 101 exProfile []
        0 (mkAct 101 (PyValue.pyFloat 20))).score =
      0 + (((UniversalAntiCheatEngine.analyze_action 101 exProfile []
        0 (mkAct 101 (PyValue.pyFloat 20))).violations.map
        fun v => v.severity).sum) :=
  c4_out_of_range_flagged 101 exProfile [] 0 (mkAct 101 (PyValue.pyFloat 20))
    (by decide)

theorem c6_counterexample :
    (UniversalAntiCheatEngine.analyze_action 101 exProfile [] 9
        (mkAct 101 (PyValue.pyFloat 20))).score = 11 ∧
    ¬ ((11 : ℚ) ≤ 10) := by
  refine ⟨?_, by norm_num⟩
  norm_num [UniversalAntiCheatEngine.analyze_action, GameProfile.validate_action,
    DynamicRuleEngine.evaluate_rule, DynamicRuleEngine.evaluate_rate_limit,
    relevant_actions, rate_max_count, exProfile, exActionDef, exRateRule, mkAct,
    alookup, PyValue.isNum, PyValue.asQ, List.filterMap_cons]

theorem c6_score_update_unclamped :
    (∀ (now : ℚ) (p : GameProfile) (buffer : List UniversalPlayerAction)
        (score : ℚ) (a : UniversalPlayerAction),
      (UniversalAntiCheatEngine.analyze_action now p buffer score a).score =
        score + (((UniversalAntiCheatEngine.analyze_action now p buffer score a).violations.map
          fun v => v.severity).sum)) ∧
    (∀ (base : ℝ) (t : Option ℝ) (now : ℝ),
      (UniversalAntiCheatEngine.get_player_risk_score base t now).2 ≤ 10) := by
  refine ⟨fun now p buffer score a => rfl, fun base t now => ?_⟩
  cases t with
  | none => exact min_le_right _ _
  | some t0 => exact min_le_right _ _

def exRateRule2 : DetectionRule :=
  { rule_id := "r2", name := "rate2", description := ""
    action_types := ["collect"], rule_type := "rate_limit"
    params := { max_per_minute := Option.some 2 }, severity := 3 }

def exValueRule : DetectionRule :=
  { rule_id := "r3", name := "rate3", description := ""
    action_types := ["collect"], rule_type := "rate_limit"
    params := { max_per_minute := Option.some 2
                max_value_per_minute := Option.some 10 }, severity := 3 }

def acts3 : List UniversalPlayerAction :=
  [mkAct 90 (PyValue.pyFloat 1), mkAct 95 (PyValue.pyFloat 1), mkAct 99 (PyValue.pyFloat 1)]

def acts10 : List UniversalPlayerAction :=
  [mkAct 90 (PyValue.pyFloat 1), mkAct 91 (PyValue.pyFloat 1), mkAct 92 (PyValue.pyFloat 1),
   mkAct 93 (PyValue.pyFloat 1), mkAct 94 (PyValue.pyFloat 1), mkAct 95 (PyValue.pyFloat 1),
   mkAct 96 (PyValue.pyFloat 1), mkAct 97 (PyValue.pyFloat 1), mkAct 98 (PyValue.pyFloat 1),
   mkAct 99 (PyValue.pyFloat 1)]

def acts2v : List UniversalPlayerAction :=
  [mkAct 90 (PyValue.pyFloat 8), mkAct 95 (PyValue.pyFloat 8)]

theorem c7_counterexample :
    (relevant_actions 100 exRateRule2 acts3).length = 3 ∧
    (relevant_actions 100 exRateRule2 acts10).length = 10 ∧
    ((DynamicRuleEngine.evaluate_rate_limit 100 exRateRule2 acts3).map
        fun v => v.severity) = Option.some 3 ∧
    ((DynamicRuleEngine.evaluate_rate_limit 100 exRateRule2 acts10).map
        fun v => v.severity) = Option.some 3 := by
  refine ⟨?_, ?_, ?_, ?_⟩ <;>
    norm_num [DynamicRuleEngine.evaluate_rate_limit, relevant_actions,
      rate_max_count, exRateRule2, mkAct, acts3, acts10]

theorem c7_severity_constant (now : ℚ) (rule : DetectionRule)
    (actions : List UniversalPlayerAction) (v : UniversalViolation)
    (h : DynamicRuleEngine.evaluate_rate_limit now rule actions = Option.some v) :
    v.severity = rule.severity := by
  cases actions with
  | nil => simp [DynamicRuleEngine.evaluate_rate_limit] at h
  | cons a0 rest =>
    simp only [DynamicRuleEngine.evaluate_rate_limit] at h
    split at h
    · cases Option.some.inj h; rfl
    · split at h
      · split at h
        · cases Option.some.inj h; rfl
        · exact absurd h (by simp)
      · exact absurd h (by simp)

def c7viol : UniversalViolation :=
  { player_id := "p", game_id := "g"
    violation_type := ViolationType.rate_limit_exceeded
    rule_id := "r2", severity := 3, timestamp := 100 }

theorem c7_witness : c7viol.severity = exRateRule2.severity :=
  c7_severity_constant 100 exRateRule2 acts3 c7viol (by
    norm_num [DynamicRuleEngine.evaluate_rate_limit, relevant_actions,
      rate_max_count, exRateRule2, mkAct, acts3, c7viol])

theorem c8_counterexample :
    ((relevant_actions 100 exValueRule acts2v).length : ℚ) = rate_max_count exValueRule ∧
    ((DynamicRuleEngine.evaluate_rate_limit 100 exValueRule acts2v).map
        fun v => v.violation_type) = Option.some ViolationType.rate_limit_exceeded := by
  constructor <;>
    norm_num [DynamicRuleEngine.evaluate_rate_limit, relevant_actions,
      rate_max_count, exValueRule, mkAct, acts2v, PyValue.isNum, PyValue.asQ]

theorem c8_rate_limit_boundary (now : ℚ) (rule : DetectionRule)
    (actions : List UniversalPlayerAction) :
    (0 ≤ rate_max_count rule →
      rate_max_count rule < ((relevant_actions now rule actions).length : ℚ) →
      (DynamicRuleEngine.evaluate_rate_limit now rule actions).isSome = true) ∧
    (((relevant_actions now rule actions).length : ℚ) = rate_max_count rule →
      rule.params.max_value_per_minute = Option.none →
      rule.params.max_total_value = Option.none →
      DynamicRuleEngine.evaluate_rate_limit now rule actions = Option.none) := by
  constructor
  · intro hmc hgt
    cases actions with
    | nil =>
      simp only [relevant_actions, List.filter_nil, List.length_nil, Nat.cast_zero] at hgt
      linarith
    | cons a0 rest =>
      simp only [DynamicRuleEngine.evaluate_rate_limit]
      rw [if_pos hgt]
      rfl
  · intro heq h1 h2
    cases actions with
    | nil => rfl
    | cons a0 rest =>
      simp only [DynamicRuleEngine.evaluate_rate_limit]
      rw [if_neg (by rw [← heq]; exact lt_irrefl _), h1, h2]
      rfl

theorem c8_witness :
    (DynamicRuleEngine.evaluate_rate_limit 100 exRateRule2 acts3).isSome = true ∧
    DynamicRuleEngine.evaluate_rate_limit 100 exRateRule2 acts2v = Option.none :=
  ⟨(c8_rate_limit_boundary 100 exRateRule2 acts3).1 (by decide)
      (by norm_num [relevant_actions, rate_max_count, exRateRule2, mkAct, acts3]),
   (c8_rate_limit_boundary 100 exRateRule2 acts2v).2
      (by norm_num [relevant_actions, rate_max_count, exRateRule2, mkAct, acts2v])
      rfl rfl⟩

/-- Looking up `alookup` after `aset` at the same key always finds the new value. -/
theorem alookup_aset {β : Type} (k : String) (v : β) :
    ∀ l : List (String × β), alookup k (aset k v l) = Option.some v := by
  intro l
  induction l with
  | nil => simp [aset, alookup]
  | cons hd tl ih =>
    obtain ⟨k', v'⟩ := hd
    by_cases hk : k' = k
    · subst hk; simp [aset, alookup]
    · simp only [aset, alookup, if_neg hk, ih]

def oldProfile : GameProfile :=
  { game_id := "g", game_name := "Old", genre := GameGenre.sandbox
    description := "", auto_ban_threshold := 9 }

def mgr0 : GameProfileManager := { profiles := [("g", oldProfile)] }

def newProfileG : GameProfile :=
  setup_mmorpg_defaults
    { game_id := "g", game_name := "New", genre := GameGenre.mmorpg, description := "" }

theorem c9_counterexample :
    ((mgr0.create_profile "g" "New" GameGenre.mmorpg "").map
        fun r => alookup "g" r.1.profiles) = Option.some (Option.some newProfileG) ∧
    newProfileG.game_name = "New" ∧ oldProfile.game_name = "Old" ∧
    newProfileG ≠ oldProfile := by
  refine ⟨rfl, rfl, rfl, fun h => ?_⟩
  exact absurd (congrArg GameProfile.game_name h) (by decide)

theorem c9_register_overwrites (mgr : GameProfileManager)
    (gid gname desc : String) (genre : GameGenre) (h : genre ≠ GameGenre.moba) :
    ∃ p, apply_genre_defaults genre
        { game_id := gid, game_name := gname, genre := genre, description := desc } =
          Option.some p ∧
      mgr.create_profile gid gname genre desc =
        Option.some ({ profiles := aset gid p mgr.profiles }, p) ∧
      alookup gid (aset gid p mgr.profiles) = Option.some p := by
  cases genre with
  | moba => exact absurd rfl h
  | mmorpg => exact ⟨_, rfl, rfl, alookup_aset _ _ _⟩
  | mobile_rpg => exact ⟨_, rfl, rfl, alookup_aset _ _ _⟩
  | fps => exact ⟨_, rfl, rfl, alookup_aset _ _ _⟩
  | battle_royale => exact ⟨_, rfl, rfl, alookup_aset _ _ _⟩
  | strategy => exact ⟨_, rfl, rfl, alookup_aset _ _ _⟩
  | puzzle => exact ⟨_, rfl, rfl, alookup_aset _ _ _⟩
  | idle => exact ⟨_, rfl, rfl, alookup_aset _ _ _⟩
  | card => exact ⟨_, rfl, rfl, alookup_aset _ _ _⟩
  | racing => exact ⟨_, rfl, rfl, alookup_aset _ _ _⟩
  | sports => exact ⟨_, rfl, rfl, alookup_aset _ _ _⟩
  | casino => exact ⟨_, rfl, rfl, alookup_aset _ _ _⟩
  | platform => exact ⟨_, rfl, rfl, alookup_aset _ _ _⟩
  | sandbox => exact ⟨_, rfl, rfl, alookup_aset _ _ _⟩

theorem c9_witness :
    ∃ p, apply_genre_defaults GameGenre.fps
        { game_id := "h", game_name := "H", genre := GameGenre.fps, description := "" } =
          Option.some p ∧
      mgr0.create_profile "h" "H" GameGenre.fps "" =
        Option.some ({ profiles := aset "h" p mgr0.profiles }, p) ∧
      alookup "h" (aset "h" p mgr0.profiles) = Option.some p :=
  c9_register_overwrites mgr0 "h" "H" "" GameGenre.fps (by decide)

/-- The decay factor is never negative. -/
theorem decay_factor_nonneg (s : ℝ) : 0 ≤ decay_factor s :=
  Real.rpow_nonneg (by norm_num) _

/-- Over a nonnegative elapsed time the decay factor is at most one. -/
theorem decay_factor_le_one {s : ℝ} (h : 0 ≤ s) : decay_factor s ≤ 1 :=
  Real.rpow_le_one (by norm_num) (by norm_num) (div_nonneg h (by norm_num))

/-- Over a positive elapsed time the decay factor is strictly below one. -/
theorem decay_factor_lt_one {s : ℝ} (h : 0 < s) : decay_factor s < 1 :=
  Real.rpow_lt_one (by norm_num) (by norm_num) (div_pos h (by norm_num))

/-- The decay factor shrinks as the elapsed time grows. -/
theorem decay_factor_anti {s t : ℝ} (h : s ≤ t) : decay_factor t ≤ decay_factor s :=
  Real.rpow_le_rpow_of_exponent_ge (by norm_num) (by norm_num)
    ((div_le_div_iff_of_pos_right (by norm_num)).mpr h)

/-- C1.  The universal ban decision is ONLY the risk-score threshold test;
the claimed severe-violations override is not implemented anywhere (the
legacy engine's `critical_violations` counter is a dead stub that is never
incremented).  A player who just incurred three severity-4.0 violations
(score 12, capped read 10) is NOT banned under an `auto_ban_threshold` of 15,
although the claimed override condition holds. -/
theorem c1_ban_ignores_severe_override :
    severe_recent_violation_count [(4, 0), (4, 0), (4, 0)] 0 = 3 ∧
    (4 : ℚ) + 4 + 4 = 12 ∧
    ¬ UniversalAntiCheatEngine.should_ban_player 15 12 (Option.some 0) 0 := by
  refine ⟨by norm_num [severe_recent_violation_count, List.filter], by norm_num, ?_⟩
  unfold UniversalAntiCheatEngine.should_ban_player
    UniversalAntiCheatEngine.get_player_risk_score
  have h1 : decay_factor ((0 : ℝ) - 0) = 1 := by
    simp [decay_factor, Real.rpow_natCast]
  simp only [h1, mul_one]
  rw [min_eq_right (by norm_num : (10:ℝ) ≤ 12)]
  norm_num

/-- C2 counterexample.  With a stored score of 8 and the latest action only
30 minutes old (well inside the last hour), the read does NOT return the
stored score: the decay `0.9 ** (1800/3600)` is applied anyway. -/
theorem c2_counterexample :
    (UniversalAntiCheatEngine.get_player_risk_score 8 (Option.some 0) 1800).2 ≠ 8 := by
  unfold UniversalAntiCheatEngine.get_player_risk_score
  have hlt : decay_factor ((1800 : ℝ) - 0) < 1 := decay_factor_lt_one (by norm_num)
  have hnn : 0 ≤ decay_factor ((1800 : ℝ) - 0) := decay_factor_nonneg _
  have h8 : 8 * decay_factor ((1800 : ℝ) - 0) < 8 := by nlinarith
  simp only []
  rw [min_eq_left (by linarith)]
  exact ne_of_lt h8

/-- C2 (amended).  Whenever the player has any buffered action, the read
applies the continuous decay `0.9 ** ((now - latest)/3600)` measured from the
latest action — even when that action is within the last hour — and caps the
result at 10; with no buffered action the stored score is returned (capped)
undecayed.  The legacy engine instead applies a flat factor 0.9 once per read
when no action is within the last hour. -/
theorem c2_decay_semantics (base t now : ℝ) (h0 : 0 ≤ base) (ht : t ≤ now) :
    (UniversalAntiCheatEngine.get_player_risk_score base (Option.some t) now).2 =
      min (base * decay_factor (now - t)) 10 ∧
    (UniversalAntiCheatEngine.get_player_risk_score base (Option.some t) now).2 ≤
      min base 10 ∧
    (UniversalAntiCheatEngine.get_player_risk_score base Option.none now).2 =
      min base 10 ∧
    (AntiCheatEngine.get_player_risk_score base true).2 = min base 10 ∧
    (AntiCheatEngine.get_player_risk_score base false).2 = min (0.9 * base) 10 := by
  refine ⟨rfl, ?_, rfl, rfl, rfl⟩
  have hf : decay_factor (now - t) ≤ 1 := decay_factor_le_one (by linarith)
  have : base * decay_factor (now - t) ≤ base := mul_le_of_le_one_right h0 hf
  exact min_le_min this le_rfl

/-- C2 witness: the amended statement at `base = 8`, latest action at `t = 0`,
read at `now = 1800`. -/
theorem c2_witness :
    (UniversalAntiCheatEngine.get_player_risk_score 8 (Option.some 0) 1800).2 =
      min (8 * decay_factor (1800 - 0)) 10 ∧
    (UniversalAntiCheatEngine.get_player_risk_score 8 (Option.some 0) 1800).2 ≤
      min 8 10 ∧
    (UniversalAntiCheatEngine.get_player_risk_score 8 Option.none 1800).2 =
      min 8 10 ∧
    (AntiCheatEngine.get_player_risk_score 8 true).2 = min 8 10 ∧
    (AntiCheatEngine.get_player_risk_score 8 false).2 = min (0.9 * 8) 10 :=
  c2_decay_semantics 8 0 1800 (by norm_num) (by norm_num)

/-- C3.  Two successive reads with no intervening action (latest action at
`ta`, reads at `t1 ≤ t2`, the first read's written-back score feeding the
second) return non-increasing values, and both returns lie in `[0, 10]`,
provided the stored score was nonnegative (scores start at 0 and only ever
accumulate nonnegative severities). -/
theorem c3_risk_reads_monotone (base ta t1 t2 : ℝ)
    (h0 : 0 ≤ base) (h1 : ta ≤ t1) (h2 : t1 ≤ t2) :
    (UniversalAntiCheatEngine.get_player_risk_score
        (UniversalAntiCheatEngine.get_player_risk_score base (Option.some ta) t1).1
        (Option.some ta) t2).2 ≤
      (UniversalAntiCheatEngine.get_player_risk_score base (Option.some ta) t1).2 ∧
    0 ≤ (UniversalAntiCheatEngine.get_player_risk_score base (Option.some ta) t1).2 ∧
    (UniversalAntiCheatEngine.get_player_risk_score base (Option.some ta) t1).2 ≤ 10 ∧
    0 ≤ (UniversalAntiCheatEngine.get_player_risk_score
        (UniversalAntiCheatEngine.get_player_risk_score base (Option.some ta) t1).1
        (Option.some ta) t2).2 ∧
    (UniversalAntiCheatEngine.get_player_risk_score
        (UniversalAntiCheatEngine.get_player_risk_score base (Option.some ta) t1).1
        (Option.some ta) t2).2 ≤ 10 := by
  unfold UniversalAntiCheatEngine.get_player_risk_score
  simp only []
  have hf1 : 0 ≤ decay_factor (t1 - ta) := decay_factor_nonneg _
  have hf2 : 0 ≤ decay_factor (t2 - ta) := decay_factor_nonneg _
  have hf2le : decay_factor (t2 - ta) ≤ 1 := decay_factor_le_one (by linarith)
  have hd1 : 0 ≤ base * decay_factor (t1 - ta) := mul_nonneg h0 hf1
  have hd2 : base * decay_factor (t1 - ta) * decay_factor (t2 - ta) ≤
      base * decay_factor (t1 - ta) := mul_le_of_le_one_right hd1 hf2le
  refine ⟨min_le_min hd2 le_rfl, le_min hd1 (by norm_num), min_le_right _ _,
    le_min (mul_nonneg hd1 hf2) (by norm_num), min_le_right _ _⟩

/-- C3 witness: the monotonicity statement at `base = 5`, latest action at
`ta = 0`, reads at `t1 = 10` and `t2 = 3600`. -/
theorem c3_witness :
    (UniversalAntiCheatEngine.get_player_risk_score
        (UniversalAntiCheatEngine.get_player_risk_score 5 (Option.some 0) 10).1
        (Option.some 0) 3600).2 ≤
      (UniversalAntiCheatEngine.get_player_risk_score 5 (Option.some 0) 10).2 ∧
    0 ≤ (UniversalAntiCheatEngine.get_player_risk_score 5 (Option.some 0) 10).2 ∧
    (UniversalAntiCheatEngine.get_player_risk_score 5 (Option.some 0) 10).2 ≤ 10 ∧
    0 ≤ (UniversalAntiCheatEngine.get_player_risk_score
        (UniversalAntiCheatEngine.get_player_risk_score 5 (Option.some 0) 10).1
        (Option.some 0) 3600).2 ∧
    (UniversalAntiCheatEngine.get_player_risk_score
        (UniversalAntiCheatEngine.get_player_risk_score 5 (Option.some 0) 10).1
        (Option.some 0) 3600).2 ≤ 10 :=
  c3_risk_reads_monotone 5 0 10 3600 (by norm_num) (by norm_num) (by norm_num)

def statAct (ts : ℚ) (z : ℤ) : UniversalPlayerAction :=
  { player_id := "p", game_id := "g", action_type := "summon"
    timestamp := ts, value := PyValue.pyInt z }

def statRule : DetectionRule :=
  { rule_id := "stat", name := "stat", description := ""
    action_types := ["summon"], rule_type := "statistical"
    params := { z_threshold := Option.some 2 }, severity := 3 }

def statVals : List ℚ := [14, 6, 11, 9, 11, 9, 10, 10, 10, 15]

def statActs : List UniversalPlayerAction :=
  [statAct 1 14, statAct 2 6, statAct 3 11, statAct 4 9, statAct 5 11,
   statAct 6 9, statAct 7 10, statAct 8 10, statAct 9 10, statAct 10 15]

/-- The sample list the statistical rule extracts from the fixture actions. -/
theorem statActs_values : statistical_values statRule statActs = statVals := by decide

/-- Mean over ALL ten samples (the source baseline). -/
theorem statVals_mean : qmean statVals = 21/2 := by norm_num [qmean, statVals]

/-- Population variance over ALL ten samples (the source baseline). -/
theorem statVals_var : qpvar statVals = 117/20 := by
  norm_num [qpvar, qmean, statVals]

/-- Value of `np.std` on the full sample list. -/
theorem statVals_std : np_std statVals = Real.sqrt (117/20) := by
  rw [np_std, statVals_var]
  norm_num

/-- The z-score of the latest sample against the full-list baseline stays at
or below the threshold 2. -/
theorem statVals_z_le : z_of statVals ≤ 2 := by
  have hstd : 0 < Real.sqrt (117/20 : ℝ) := Real.sqrt_pos.mpr (by norm_num)
  have hlast : ((statVals.getLast?).getD 0 : ℚ) = 15 := by decide
  rw [z_of, statVals_std, hlast, statVals_mean]
  have habs : |((15 : ℚ) : ℝ) - ((21/2 : ℚ) : ℝ)| = 9/2 := by
    rw [show ((15 : ℚ) : ℝ) - ((21/2 : ℚ) : ℝ) = 9/2 by push_cast; norm_num]
    exact abs_of_nonneg (by norm_num)
  rw [habs, div_le_iff₀ hstd]
  have h94 : (9/4 : ℝ) ≤ Real.sqrt (117/20) := by
    rw [Real.le_sqrt (by norm_num) (by norm_num)]
    norm_num
  linarith

/-- C5 counterexample.  On ten samples `[14,6,11,9,11,9,10,10,10,15]` with
`z_threshold = 2`, the source evaluator (baseline over ALL ten samples,
std √5.85, z ≈ 1.86) produces NO violation, while the claimed evaluator
(baseline over the first nine samples, mean 10, std 2, z = 2.5) does. -/
theorem c5_counterexample :
    DynamicRuleEngine.evaluate_statistical statRule statActs = Option.none ∧
    claim_statistical_violates 2 (statistical_values statRule statActs) := by
  constructor
  · simp only [DynamicRuleEngine.evaluate_statistical, statActs_values]
    rw [if_neg (by decide : ¬ statVals.length < 10)]
    show (match statRule.params.z_threshold with
      | Option.none => Option.none
      | Option.some T =>
        if 0 < np_std statVals then
          if (T : ℝ) < z_of statVals then
            Option.some (min ((statRule.severity : ℝ) * (z_of statVals / (T : ℝ))) 5)
          else Option.none
        else Option.none) = Option.none
    show (if 0 < np_std statVals then
        if ((2 : ℚ) : ℝ) < z_of statVals then
          Option.some (min ((statRule.severity : ℝ) * (z_of statVals / ((2 : ℚ) : ℝ))) 5)
        else Option.none
      else Option.none) = Option.none
    rw [if_pos (by rw [statVals_std]; exact Real.sqrt_pos.mpr (by norm_num))]
    rw [if_neg]
    push_cast
    exact not_lt.mpr statVals_z_le
  · constructor
    · decide
    · have hdrop : statVals.dropLast = [14, 6, 11, 9, 11, 9, 10, 10, 10] := by decide
      rw [statActs_values, hdrop]
      have hmean9 : qmean [14, 6, 11, 9, 11, 9, 10, 10, 10] = 10 := by
        norm_num [qmean]
      have hvar9 : qpvar [14, 6, 11, 9, 11, 9, 10, 10, 10] = 4 := by
        norm_num [qpvar, qmean]
      have hstd9 : np_std [14, 6, 11, 9, 11, 9, 10, 10, 10] = 2 := by
        rw [np_std, hvar9]
        rw [show (((4 : ℚ) : ℝ)) = 2^2 by norm_num,
          Real.sqrt_sq (by norm_num : (0:ℝ) ≤ 2)]
      have hlast : ((statVals.getLast?).getD 0 : ℚ) = 15 := by decide
      rw [show (statVals.dropLast) = [14, 6, 11, 9, 11, 9, 10, 10, 10] from hdrop] at *
      rw [hstd9, hmean9, hlast]
      rw [show ((15 : ℚ) : ℝ) - ((10 : ℚ) : ℝ) = 5 by push_cast; norm_num]
      rw [show |(5:ℝ)| = 5 from abs_of_nonneg (by norm_num)]
      norm_num

/-- C5 (amended).  The statistical evaluator's baseline includes the latest
sample: a `statistical_anomaly` violation is produced exactly when there are
at least 10 numeric matching samples, the rule has a `z_threshold` parameter,
the population std of ALL samples is positive, and the z-score of the latest
sample against that full-list baseline exceeds the threshold; its severity is
`min(rule.severity * (z / z_threshold), 5.0)`, hence never above 5. -/
theorem c5_statistical_baseline (rule : DetectionRule)
    (actions : List UniversalPlayerAction) :
    ((DynamicRuleEngine.evaluate_statistical rule actions).isSome = true ↔
      (10 ≤ (statistical_values rule actions).length ∧
        ∃ T, rule.params.z_threshold = Option.some T ∧
          0 < np_std (statistical_values rule actions) ∧
          (T : ℝ) < z_of (statistical_values rule actions))) ∧
    (∀ s, DynamicRuleEngine.evaluate_statistical rule actions = Option.some s →
      ∃ T, rule.params.z_threshold = Option.some T ∧
        s = min ((rule.severity : ℝ) *
          (z_of (statistical_values rule actions) / (T : ℝ))) 5 ∧
        s ≤ 5) := by
  by_cases h10 : (statistical_values rule actions).length < 10
  · have hnot : ¬ 10 ≤ (statistical_values rule actions).length := by omega
    constructor
    · rw [DynamicRuleEngine.evaluate_statistical, if_pos h10]
      simp [hnot]
    · intro s hs
      rw [DynamicRuleEngine.evaluate_statistical, if_pos h10] at hs
      exact absurd hs (by simp)
  · have h10' : 10 ≤ (statistical_values rule actions).length := by omega
    cases hT : rule.params.z_threshold with
    | none =>
      constructor
      · rw [DynamicRuleEngine.evaluate_statistical, if_neg h10, hT]
        simp [hT]
      · intro s hs
        rw [DynamicRuleEngine.evaluate_statistical, if_neg h10, hT] at hs
        exact absurd hs (by simp)
    | some T =>
      by_cases hstd : 0 < np_std (statistical_values rule actions)
      · by_cases hz : (T : ℝ) < z_of (statistical_values rule actions)
        · constructor
          · rw [DynamicRuleEngine.evaluate_statistical, if_neg h10, hT]
            simp only [if_pos hstd, if_pos hz, Option.isSome_some, true_iff]
            exact ⟨h10', T, rfl, hstd, hz⟩
          · intro s hs
            rw [DynamicRuleEngine.evaluate_statistical, if_neg h10, hT] at hs
            dsimp only at hs
            rw [if_pos hstd, if_pos hz] at hs
            exact ⟨T, rfl, (Option.some.inj hs).symm, by
              rw [← Option.some.inj hs]; exact min_le_right _ _⟩
        · constructor
          · rw [DynamicRuleEngine.evaluate_statistical, if_neg h10, hT]
            dsimp only
            rw [if_pos hstd, if_neg hz]
            simp only [Option.isSome_none, Bool.false_eq_true, false_iff]
            rintro ⟨-, T', hT', -, hz'⟩
            rw [Option.some.inj hT'] at hz
            exact hz hz'
          · intro s hs
            rw [DynamicRuleEngine.evaluate_statistical, if_neg h10, hT] at hs
            dsimp only at hs
            rw [if_pos hstd, if_neg hz] at hs
            exact absurd hs (by simp)
      · constructor
        · rw [DynamicRuleEngine.evaluate_statistical, if_neg h10, hT]
          dsimp only
          rw [if_neg hstd]
          simp only [Option.isSome_none, Bool.false_eq_true, false_iff]
          rintro ⟨-, T', hT', hstd', -⟩
          exact hstd hstd'
        · intro s hs
          rw [DynamicRuleEngine.evaluate_statistical, if_neg h10, hT] at hs
          dsimp only at hs
          rw [if_neg hstd] at hs
          exact absurd hs (by simp)

def statVals2 : List ℚ := [10, 10, 10, 10, 10, 10, 10, 10, 10, 16]

def statActs2 : List UniversalPlayerAction :=
  [statAct 1 10, statAct 2 10, statAct 3 10, statAct 4 10, statAct 5 10,
   statAct 6 10, statAct 7 10, statAct 8 10, statAct 9 10, statAct 10 16]

/-- Value of `np.std` on the second fixture sample list: exactly 9/5. -/
theorem statVals2_std : np_std statVals2 = 9/5 := by
  have hvar : qpvar statVals2 = 81/25 := by norm_num [qpvar, qmean, statVals2]
  rw [np_std, hvar, show (((81/25 : ℚ) : ℝ)) = (9/5)^2 by norm_num,
    Real.sqrt_sq (by norm_num : (0:ℝ) ≤ 9/5)]

/-- The second fixture's z-score is exactly 3. -/
theorem statVals2_z : z_of statVals2 = 3 := by
  have hlast : ((statVals2.getLast?).getD 0 : ℚ) = 16 := by decide
  have hmean : qmean statVals2 = 53/5 := by norm_num [qmean, statVals2]
  rw [z_of, statVals2_std, hlast, hmean,
    show ((16 : ℚ) : ℝ) - ((53/5 : ℚ) : ℝ) = 27/5 by push_cast; norm_num,
    show |(27/5 : ℝ)| = 27/5 from abs_of_nonneg (by norm_num)]
  norm_num

/-- C5 witness: the characterization applied to a sample list
`[10×9, 16]` (std 9/5, z = 3 > threshold 2) shows the evaluator fires there. -/
theorem c5_witness :
    (DynamicRuleEngine.evaluate_statistical statRule statActs2).isSome = true :=
  (c5_statistical_baseline statRule statActs2).1.mpr
    ⟨by decide, 2, rfl, by
        rw [show statistical_values statRule statActs2 = statVals2 by decide,
          statVals2_std]
        norm_num,
      by
        rw [show statistical_values statRule statActs2 = statVals2 by decide,
          statVals2_z]
        norm_num⟩

/-- Lookup via `alookup` misses when no entry carries the key. -/
theorem alookup_eq_none {β : Type} (k : String) (l : List (String × β))
    (h : ∀ q ∈ l, q.1 ≠ k) : alookup k l = Option.none := by
  induction l with
  | nil => rfl
  | cons hd tl ih =>
    obtain ⟨k', v'⟩ := hd
    have hk : k' ≠ k := h (k', v') (List.mem_cons_self _ _)
    simp only [alookup, if_neg hk]
    exact ih fun q hq => h q (List.mem_cons_of_mem _ hq)

/-- A successful `alookup` exhibits a member of the list. -/
theorem alookup_mem {β : Type} {k : String} {l : List (String × β)} {v : β}
    (h : alookup k l = Option.some v) : (k, v) ∈ l := by
  induction l with
  | nil => simp [alookup] at h
  | cons hd tl ih =>
    obtain ⟨k', v'⟩ := hd
    by_cases hk : k' = k
    · subst hk
      simp only [alookup, if_pos rfl] at h
      cases Option.some.inj h
      exact List.mem_cons_self _ _
    · simp only [alookup, if_neg hk] at h
      exact List.mem_cons_of_mem _ (ih h)

/-- Mapping values and filtering never invents a key. -/
theorem alookup_mapfilter_none {β β' : Type} (k : String) (f : β → β')
    (pred : String × β' → Bool) (l : List (String × β))
    (h : ∀ q ∈ l, q.1 ≠ k) :
    alookup k ((l.map fun pa => (pa.1, f pa.2)).filter pred) = Option.none := by
  apply alookup_eq_none
  intro q hq
  obtain ⟨r, hr, rfl⟩ := List.mem_map.mp (List.mem_of_mem_filter hq)
  exact h r hr

/-- Looking a key up after a value-map and a filter: with unique keys, the
entry survives exactly when the filter keeps its mapped value. -/
theorem alookup_mapfilter {β β' : Type} (k : String) (v : β) (f : β → β')
    (pred : String × β' → Bool) (l : List (String × β))
    (hnd : (l.map Prod.fst).Nodup) (hl : alookup k l = Option.some v) :
    alookup k ((l.map fun pa => (pa.1, f pa.2)).filter pred) =
      if pred (k, f v) = true then Option.some (f v) else Option.none := by
  induction l with
  | nil => simp [alookup] at hl
  | cons hd tl ih =>
    obtain ⟨k', w⟩ := hd
    rw [List.map_cons, List.nodup_cons] at hnd
    by_cases hk : k' = k
    · subst hk
      simp only [alookup, if_pos rfl] at hl
      cases Option.some.inj hl
      rw [List.map_cons]
      by_cases hp : pred (k', f v) = true
      · rw [List.filter_cons_of_pos hp]
        simp [alookup, hp]
      · rw [List.filter_cons_of_neg (by simpa using hp), if_neg hp]
        apply alookup_mapfilter_none
        intro q hq hqk
        apply hnd.1
        rw [← hqk]
        exact List.mem_map.mpr ⟨q, hq, rfl⟩
    · simp only [alookup, if_neg hk] at hl
      rw [List.map_cons]
      by_cases hp : pred (k', f w) = true
      · rw [List.filter_cons_of_pos hp]
        simp only [alookup, if_neg hk]
        exact ih hnd.2 hl
      · rw [List.filter_cons_of_neg (by simpa using hp)]
        exact ih hnd.2 hl

/-- After cleanup, the first score map found for game `g` no longer binds any
player the cleanup deleted from that game. -/
theorem cleanup_scores_lookup_none (cutoff : ℚ)
    (pa : List (String × List (String × List UniversalPlayerAction)))
    (g p : String) (ps : List (String × List UniversalPlayerAction))
    (hg : alookup g pa = Option.some ps)
    (hmem : p ∈ cleaned_out_players cutoff ps) :
    ∀ (scores : List (String × List (String × ℚ)))
      (ss : List (String × ℚ)),
      alookup g (cleanup_scores cutoff pa scores) = Option.some ss →
      alookup p ss = Option.none := by
  intro scores
  induction scores with
  | nil => intro ss hss; simp [cleanup_scores, alookup] at hss
  | cons gs rest ih =>
    intro ss hss
    obtain ⟨g', sm⟩ := gs
    rw [cleanup_scores, List.filterMap_cons] at hss
    by_cases hgg : g' = g
    · subst hgg
      rw [hg] at hss
      dsimp only at hss
      by_cases hemp : (cleanup_game_actions cutoff ps).isEmpty = true
      · rw [if_pos hemp] at hss
        dsimp only at hss
        exact ih ss hss
      · rw [if_neg hemp] at hss
        dsimp only at hss
        simp only [alookup, if_pos rfl] at hss
        cases Option.some.inj hss
        apply alookup_eq_none
        intro q hq hqp
        have hpred := List.of_mem_filter hq
        rw [hqp] at hpred
        simp [hmem] at hpred
    · cases halt : alookup g' pa with
      | none =>
        rw [halt] at hss
        dsimp only at hss
        simp only [alookup, if_neg hgg] at hss
        exact ih ss hss
      | some ps' =>
        rw [halt] at hss
        dsimp only at hss
        by_cases hemp : (cleanup_game_actions cutoff ps').isEmpty = true
        · rw [if_pos hemp] at hss
          dsimp only at hss
          exact ih ss hss
        · rw [if_neg hemp] at hss
          dsimp only at hss
          simp only [alookup, if_neg hgg] at hss
          exact ih ss hss

/-- C10.  After `cleanup_old_data`, a player whose whole buffer is older than
the 24-hour cutoff is removed from both the action buffers and the violation
score map of their game, and a subsequent risk-score read for that player
returns 0.0 — the score entry is deleted outright, not decayed. -/
theorem c10_cleanup_deletes_stale (now : ℚ) (st : EngineState) (g p : String)
    (ps : List (String × List UniversalPlayerAction))
    (acts : List UniversalPlayerAction)
    (hg : alookup g st.player_actions = Option.some ps)
    (hp : alookup p ps = Option.some acts)
    (hgn : (st.player_actions.map Prod.fst).Nodup)
    (hpn : (ps.map Prod.fst).Nodup)
    (hold : ∀ a ∈ acts, a.timestamp < now - 86400) :
    (∀ qs, alookup g (UniversalAntiCheatEngine.cleanup_old_data now st).player_actions =
        Option.some qs → alookup p qs = Option.none) ∧
    (∀ ss, alookup g (UniversalAntiCheatEngine.cleanup_old_data now st).violation_scores =
        Option.some ss → alookup p ss = Option.none) ∧
    (∀ tr : ℝ,
      (UniversalAntiCheatEngine.cleanup_old_data now st).risk_score_read g p tr = 0) := by
  have hdrop : drop_old_head (now - 86400) acts = [] :=
    List.dropWhile_eq_nil_iff.mpr fun a ha => decide_eq_true (hold a ha)
  have hmem : p ∈ cleaned_out_players (now - 86400) ps := by
    apply List.mem_map.mpr
    refine ⟨(p, acts), List.mem_filter.mpr ⟨alookup_mem hp, ?_⟩, rfl⟩
    rw [hdrop]; rfl
  have hgame : alookup g ((st.player_actions.map fun gps =>
      (gps.1, cleanup_game_actions (now - 86400) gps.2)).filter fun gps => !gps.2.isEmpty) =
      if (!(cleanup_game_actions (now - 86400) ps).isEmpty) = true then
        Option.some (cleanup_game_actions (now - 86400) ps)
      else Option.none :=
    alookup_mapfilter g ps _ _ st.player_actions hgn hg
  have hplayer : alookup p (cleanup_game_actions (now - 86400) ps) = Option.none := by
    have := alookup_mapfilter p acts (drop_old_head (now - 86400))
      (fun pa => !pa.2.isEmpty) ps hpn hp
    rw [cleanup_game_actions, this, hdrop]
    rfl
  have part1 : ∀ qs,
      alookup g (UniversalAntiCheatEngine.cleanup_old_data now st).player_actions =
        Option.some qs → alookup p qs = Option.none := by
    intro qs hqs
    rw [UniversalAntiCheatEngine.cleanup_old_data] at hqs
    simp only at hqs
    rw [hgame] at hqs
    by_cases hemp : (!(cleanup_game_actions (now - 86400) ps).isEmpty) = true
    · rw [if_pos hemp] at hqs
      cases Option.some.inj hqs
      exact hplayer
    · rw [if_neg hemp] at hqs
      exact absurd hqs (by simp)
  have part2 : ∀ ss,
      alookup g (UniversalAntiCheatEngine.cleanup_old_data now st).violation_scores =
        Option.some ss → alookup p ss = Option.none := by
    intro ss hss
    rw [UniversalAntiCheatEngine.cleanup_old_data] at hss
    simp only at hss
    exact cleanup_scores_lookup_none (now - 86400) st.player_actions g p ps hg hmem
      st.violation_scores ss hss
  refine ⟨part1, part2, ?_⟩
  intro tr
  rw [EngineState.risk_score_read]
  have hbase : (alookup p ((alookup g
      (UniversalAntiCheatEngine.cleanup_old_data now st).violation_scores).getD [])).getD 0
      = (0 : ℚ) := by
    cases hsc : alookup g (UniversalAntiCheatEngine.cleanup_old_data now st).violation_scores with
    | none => rfl
    | some ss => rw [Option.getD_some, part2 ss hsc]; rfl
  have hacts : (alookup p ((alookup g
      (UniversalAntiCheatEngine.cleanup_old_data now st).player_actions).getD [])).getD []
      = ([] : List UniversalPlayerAction) := by
    cases hpa : alookup g (UniversalAntiCheatEngine.cleanup_old_data now st).player_actions with
    | none => rfl
    | some qs => rw [Option.getD_some, part1 qs hpa]; rfl
  rw [hbase, hacts]
  simp only [List.getLast?_nil, Option.map_none']
  rw [UniversalAntiCheatEngine.get_player_risk_score]
  simp only [Rat.cast_zero]
  exact min_eq_left (by norm_num)

def oldAct : UniversalPlayerAction := mkAct 0 (PyValue.pyFloat 1)

def staleState : EngineState :=
  { player_actions := [("g", [("p", [oldAct])])]
    violation_scores := [("g", [("p", 7)])] }

/-- C10 witness: a player whose only action is 100000 - 0 > 86400 seconds old
and whose stored score is 7 is fully removed, and the following read is 0. -/
theorem c10_witness :
    (∀ qs, alookup "g" (UniversalAntiCheatEngine.cleanup_old_data 100000
        staleState).player_actions = Option.some qs → alookup "p" qs = Option.none) ∧
    (∀ ss, alookup "g" (UniversalAntiCheatEngine.cleanup_old_data 100000
        staleState).violation_scores = Option.some ss → alookup "p" ss = Option.none) ∧
    (∀ tr : ℝ, (UniversalAntiCheatEngine.cleanup_old_data 100000
        staleState).risk_score_read "g" "p" tr = 0) :=
  c10_cleanup_deletes_stale 100000 staleState "g" "p" [("p", [oldAct])] [oldAct]
    rfl rfl (by decide) (by decide)
    (by intro a ha; rw [List.mem_singleton.mp ha]; norm_num [oldAct, mkAct])
